import Mathlib

/-!
Verification of the HTTP request-smuggling scanner core.

This file gives a shallow embedding, in Lean 4, of the probe-construction
and differential-detection engine of the scanner:

- the payload generator (package payload, file smuggling_payloads.go, with
  the historical revision of GenerateCLTE kept alongside);
- the raw sender response handling (package sender: parseHTTPResponse and
  the tail of SendRequest that classifies the final read error);
- the baseline comparison (package baseline, file baseline.go);
- the weighted-signal detector (package detector, file detector.go);
- the two-step GPOST poisoning classification and the advisory-service
  verdict update (package scanner, file scanner.go).

Modelling conventions: Go strings are modelled as lists of characters
(all data relevant to the properties below is ASCII, so Go byte length
coincides with list length); Go float64 arithmetic on the small decimal
signal weights is modelled exactly in the rationals; Go maps from string
to string are modelled as association lists with distinct keys built by
overwriting insertion; a nil pointer is modelled as the none case of an
option; a non-nil Go error is modelled as a Boolean flag or an Except
value.  Every definition is executable.
-/

namespace Smuggler

/-- Go strings are modelled as lists of characters. -/
abbrev Str := List Char

/-- Coerces a Lean string literal to the list-of-characters model. -/
def str (s : String) : Str := s.data

/-- Whitespace test used by the models of strings.Fields and strings.TrimSpace. -/
def isWS (c : Char) : Bool := c = ' ' || c = '\t' || c = '\n' || c = '\r' || c = '\x0b' || c = '\x0c'

/-- Model of strings.TrimSpace: drops leading and trailing whitespace. -/
def trimSpace (l : Str) : Str :=
  ((l.dropWhile isWS).reverse.dropWhile isWS).reverse

/-- Accumulator pass of the model of strings.Fields: the first argument is
the remaining input, the second the reversed current word. -/
def fieldsAux : Str → Str → List Str
  | [], acc => if acc = [] then [] else [acc.reverse]
  | c :: rest, acc =>
    if isWS c then
      if acc = [] then fieldsAux rest [] else acc.reverse :: fieldsAux rest []
    else fieldsAux rest (c :: acc)

/-- Model of strings.Fields: splits around runs of whitespace, dropping empties. -/
def fields (l : Str) : List Str := fieldsAux l []

/-- Model of strings.Split with separator CRLF. -/
def splitCRLF : Str → List Str
  | [] => [[]]
  | [c] => [[c]]
  | c₁ :: c₂ :: rest =>
    if c₁ = '\r' ∧ c₂ = '\n' then [] :: splitCRLF rest
    else
      match splitCRLF (c₂ :: rest) with
      | [] => [[c₁]]
      | h :: t => (c₁ :: h) :: t

/-- Model of strings.Join with separator CRLF. -/
def joinCRLF : List Str → Str
  | [] => []
  | [x] => x
  | x :: y :: t => x ++ '\r' :: '\n' :: joinCRLF (y :: t)

/-- Model of strings.ToUpper (character-wise, ASCII data). -/
def toUpperStr (l : Str) : Str := l.map Char.toUpper

/-- Model of strings.ToLower (character-wise, ASCII data). -/
def toLowerStr (l : Str) : Str := l.map Char.toLower

/-- Model of strings.Contains: the second argument occurs inside the first. -/
def containsStr (s substr : Str) : Bool := decide (substr <:+: s)

/-- Scans a nonempty leading run of decimal digits, as the digit part of the fmt verb for integers. -/
def scanNat (l : Str) : Option Nat :=
  let ds := l.takeWhile Char.isDigit
  if ds = [] then none
  else some (ds.foldl (fun a c => a * 10 + (c.toNat - 48)) 0)

/-- Model of scanning an integer with the fmt verb for decimal integers:
an optional sign followed by at least one digit; trailing characters are ignored;
with no leading digits the scan fails and the target variable keeps its old value. -/
def scanInt (l : Str) : Option Int :=
  match l with
  | '-' :: rest => (scanNat rest).map (fun n => -(n : Int))
  | '+' :: rest => (scanNat rest).map (fun n => (n : Int))
  | _ => (scanNat l).map (fun n => (n : Int))

/-- Decimal digits of a natural number, as the fmt verb for integers prints it. -/
def natChars (n : Nat) : Str := Nat.toDigits 10 n

/-- Decimal rendering of an integer, as the fmt verb for integers prints it. -/
def intChars (i : Int) : Str :=
  if i < 0 then '-' :: natChars i.natAbs else natChars i.natAbs

/-- Go rendering of a Boolean with the fmt verb v. -/
def boolChars (b : Bool) : Str := if b then str "true" else str "false"

/-! Header maps.  A Go map from string to string is modelled as an
association list with distinct keys; assignment is overwriting insertion. -/

/-- Model of a map lookup: value of the first entry with the given key. -/
def lookupKV (m : List (Str × Str)) (k : Str) : Option Str :=
  (m.find? (fun p => decide (p.1 = k))).map (fun p => p.2)

/-- Model of a map assignment: overwrite the entry with the given key, or append a new one. -/
def insertKV (m : List (Str × Str)) (k v : Str) : List (Str × Str) :=
  if (m.find? (fun p => decide (p.1 = k))).isSome then
    m.map (fun p => if p.1 = k then (k, v) else p)
  else m ++ [(k, v)]

/-! Data model, from internal/models/result.go (latest revision).  The Raw,
StatusCode, Headers, Body, TimingMS and ConnectionClosed fields are kept;
the Error field is modelled as a Boolean presence flag. -/

/-- Model of models.HTTPResponse. -/
structure HTTPResponse where
  raw : Str := []
  statusCode : Int := 0
  headers : List (Str × Str) := []
  body : Str := []
  timingMS : Int := 0
  connectionClosed : Bool := false
  hasError : Bool := false
deriving DecidableEq, Repr

/-- Model of models.ScanResult.  Confidence is the primary detector field and
ConfidenceScore the backward-compatibility field raised by the advisory
update; the fired-signal descriptions that the detector folds into the Reason
string are kept as a list. -/
structure ScanResult where
  target : Str := []
  technique : Str := []
  suspicious : Bool := false
  confidence : ℚ := 0
  confidenceScore : ℚ := 0
  responseTimeDiff : Int := 0
  signals : List Str := []
  baselineResponse : Option HTTPResponse := none
  testResponse : Option HTTPResponse := none
deriving DecidableEq, Repr

/-- Model of models.BaselineComparison. -/
structure BaselineComparison where
  baseline : Option HTTPResponse := none
  test : Option HTTPResponse := none
  statusCodeChanged : Bool := false
  oldStatusCode : Int := 0
  newStatusCode : Int := 0
  timingDiffMS : Int := 0
  connectionBehaviorChanged : Bool := false
  oldConnectionClosed : Bool := false
  newConnectionClosed : Bool := false
  headersAdded : List (Str × Str) := []
  headersRemoved : List (Str × Str) := []
  headersModified : List (Str × Str) := []
  bodySizeDiff : Int := 0
  bodyChanged : Bool := false
  changes : List Str := []
deriving DecidableEq, Repr

/-- Model of ai.AnalysisResult, the assessment returned by the advisory service. -/
structure AnalysisResult where
  isVulnerable : Bool := false
  techniques : List Str := []
  confidence : ℚ := 0
  reasoning : Str := []
  suspiciousSignals : List Str := []
  recommendations : List Str := []
deriving DecidableEq, Repr

/-! Sender, from package sender (revision with the TLS 1.2 minimum, the
explicit timeout classification of the final read error, and the guarded
header parse).  Reading is modelled by the sequence of successfully read
chunks followed by the error that ended the read loop. -/

/-- Kind of the error that terminated the read loop: end of stream because the
peer closed the socket, an elapsed read deadline, or any other read error. -/
inductive ReadErrKind where
  | eofErr
  | timeoutErr
  | otherErr
deriving DecidableEq, Repr

/-- Model of readFullResponse: reads chunks until the first error and returns
the accumulated buffer together with that error. -/
def readFullResponse (chunks : List Str) (finalErr : ReadErrKind) : Str × ReadErrKind :=
  (chunks.flatten, finalErr)

/-- Parses one header line into the map, skipping lines whose colon index is
at most zero, trimming key and value; from parseHTTPResponse. -/
def parseHeaderLine (acc : List (Str × Str)) (line : Str) : List (Str × Str) :=
  let pre := line.takeWhile (fun c => !(c = ':'))
  if pre.length = 0 ∨ pre.length = line.length then acc
  else insertKV acc (trimSpace pre) (trimSpace (line.drop (pre.length + 1)))

/-- Model of parseHTTPResponse: split the raw bytes on CRLF; scan the second
field of the status line as the status code, leaving zero when the scan
fails or the token is missing; collect header lines up to the first empty
line; the body is the CRLF-join of everything after that empty line.
The function is total: no malformed input is an error. -/
def parseHTTPResponse (raw : Str) : HTTPResponse :=
  if raw = [] then { raw := raw }
  else
    let lines := splitCRLF raw
    match lines with
    | [] => { raw := raw }
    | statusLine :: _ =>
      let parts := fields statusLine
      let statusCode : Int :=
        match parts.get? 1 with
        | some tok =>
          match scanInt tok with
          | some n => n
          | none => 0
        | none => 0
      let headerLines := (lines.drop 1).takeWhile (fun l => !(l = []))
      let headers := headerLines.foldl parseHeaderLine []
      let headerEnd : Option Nat := ((lines.drop 1).findIdx? (fun l => l = [])).map (· + 1)
      let body : Str :=
        match headerEnd with
        | some he => if he + 1 < lines.length then joinCRLF (lines.drop (he + 1)) else []
        | none => []
      { raw := raw, statusCode := statusCode, headers := headers, body := body }

/-- Tail of SendRequest after a successful connect and write: collect the raw
bytes, classify the final read error into the connection-closed flag (only a
read error that is neither end-of-stream nor a deadline timeout sets the
flag; end-of-stream leaves it at its zero value false, and a timeout is
explicitly recorded as false), parse, and return without error. -/
def sendRequestFinish (chunks : List Str) (finalErr : ReadErrKind) (timingMS : Int) : HTTPResponse :=
  let rd := readFullResponse chunks finalErr
  let raw := rd.1
  let connectionClosed :=
    match rd.2 with
    | ReadErrKind.eofErr => false
    | ReadErrKind.timeoutErr => false
    | ReadErrKind.otherErr => true
  { parseHTTPResponse raw with timingMS := timingMS, connectionClosed := connectionClosed }

/-! Payload generator, from internal/payload/smuggling_payloads.go, with the
historical revision of GenerateCLTE kept for comparison. -/

/-- The chunked body preamble written by buildChunkedPrefix in
smuggling_payloads.go: a chunk of size five holding the zero chunk marker,
followed by the zero-size terminating chunk. -/
def buildChunkedPrefixStr : Str := str "5\r\n0\r\n\r\n0\r\n\r\n"

/-- Model of GenerateCLTE (smuggling_payloads.go): appends the chunked
Transfer-Encoding header, a Content-Length header whose value is the byte
length of the whole chunked body including the smuggled request, the blank
line, and the body. -/
def GenerateCLTE (baseRequest smoggledBody : Str) : Str :=
  let body := buildChunkedPrefixStr ++ smoggledBody
  baseRequest
    ++ str "Transfer-Encoding: chunked\r\n"
    ++ str "Content-Length: " ++ natChars body.length ++ str "\r\n"
    ++ str "\r\n"
    ++ body

/-- Model of the historical revision of GenerateCLTE (file revision kept in
the repository next to the packaged one): it declares a fixed Content-Length
of six (four plus the length of one CRLF) while still writing the same
thirteen-byte chunk sequence before the smuggled body. -/
def GenerateCLTE_rev004 (baseRequest smoggledBody : Str) : Str :=
  let contentLengthValue := 4 + (str "\r\n").length
  baseRequest
    ++ str "Transfer-Encoding: chunked\r\n"
    ++ str "Content-Length: " ++ natChars contentLengthValue ++ str "\r\n"
    ++ str "\r\n"
    ++ str "5\r\n" ++ str "0\r\n\r\n" ++ str "0\r\n" ++ str "\r\n"
    ++ smoggledBody

/-! Baseline comparison, from internal/baseline/baseline.go (the revision
with the nil guard and the case-insensitive header diff). -/

/-- Model of normalizeHeaderMap: rebuild the map with lowercased keys. -/
def normalizeHeaderMap (src : List (Str × Str)) : List (Str × Str) :=
  src.foldl (fun out p => insertKV out (toLowerStr p.1) p.2) []

/-- Headers present in the normalized baseline map but absent from the
normalized test map, with their baseline values. -/
def headersRemovedOf (nb nt : List (Str × Str)) : List (Str × Str) :=
  nb.filter (fun p => (lookupKV nt p.1).isNone)

/-- Headers present in both normalized maps with differing values, recorded
with the test value. -/
def headersModifiedOf (nb nt : List (Str × Str)) : List (Str × Str) :=
  nb.filterMap (fun p =>
    match lookupKV nt p.1 with
    | some w => if p.2 ≠ w then some (p.1, w) else none
    | none => none)

/-- Headers present in the normalized test map but absent from the
normalized baseline map. -/
def headersAddedOf (nb nt : List (Str × Str)) : List (Str × Str) :=
  nt.filter (fun p => (lookupKV nb p.1).isNone)

/-- Lexicographic comparison used to model sort.Strings over header keys. -/
def strLe (a b : Str) : Bool := !decide (b < a)

/-- Insertion into a sorted list of strings. -/
def insertSorted (x : Str) : List Str → List Str
  | [] => [x]
  | y :: t => if strLe x y then x :: y :: t else y :: insertSorted x t

/-- Insertion sort over strings, the model of sort.Strings. -/
def sortStrs : List Str → List Str
  | [] => []
  | x :: t => insertSorted x (sortStrs t)

/-- Model of getHeaderKeys: the sorted list of keys of a header map. -/
def getHeaderKeys (headers : List (Str × Str)) : List Str :=
  sortStrs (headers.map (fun p => p.1))

/-- Go rendering of a slice of strings with the fmt verb v: bracketed and
space-separated. -/
def fmtKeys (keys : List Str) : Str :=
  '[' :: (joinSp keys) ++ [']']
where
  joinSp : List Str → Str
    | [] => []
    | [x] => x
    | x :: y :: t => x ++ ' ' :: joinSp (y :: t)

/-- Model of CompareResponses (baseline.go): the nil guard records one
invalid-input note and returns; otherwise the status, timing, connection,
header, body and error comparisons run in source order, appending a change
note for each detected difference. -/
def CompareResponses (baseline test : Option HTTPResponse) : BaselineComparison :=
  let comparison : BaselineComparison := { baseline := baseline, test := test }
  match baseline, test with
  | some b, some t =>
    let cp := comparison
    let cp :=
      if b.statusCode ≠ t.statusCode then
        { cp with statusCodeChanged := true, oldStatusCode := b.statusCode,
                  newStatusCode := t.statusCode,
                  changes := cp.changes ++ [str "Status code changed: " ++ intChars b.statusCode
                    ++ str " -> " ++ intChars t.statusCode] }
      else cp
    let timingDiff := t.timingMS - b.timingMS
    let cp := { cp with timingDiffMS := timingDiff }
    let cp :=
      if b.timingMS > 0 ∧ (timingDiff > 100 ∨ timingDiff < -100) then
        { cp with changes := cp.changes ++ [str "Timing changed: " ++ intChars b.timingMS
          ++ str " ms -> " ++ intChars t.timingMS ++ str " ms (diff: " ++ intChars timingDiff
          ++ str " ms)"] }
      else cp
    let cp :=
      if b.connectionClosed ≠ t.connectionClosed then
        { cp with connectionBehaviorChanged := true, oldConnectionClosed := b.connectionClosed,
                  newConnectionClosed := t.connectionClosed,
                  changes := cp.changes ++ [str "Connection behavior changed: closed="
                    ++ boolChars b.connectionClosed ++ str " -> closed="
                    ++ boolChars t.connectionClosed] }
      else cp
    let nb := normalizeHeaderMap b.headers
    let nt := normalizeHeaderMap t.headers
    let hRemoved := headersRemovedOf nb nt
    let hModified := headersModifiedOf nb nt
    let hAdded := headersAddedOf nb nt
    let cp := { cp with headersRemoved := hRemoved,
                        headersModified := hModified,
                        headersAdded := hAdded }
    let cp :=
      if hAdded ≠ [] then
        { cp with changes := cp.changes ++ [str "Headers added: " ++ fmtKeys (getHeaderKeys hAdded)] }
      else cp
    let cp :=
      if hRemoved ≠ [] then
        { cp with changes := cp.changes ++ [str "Headers removed: " ++ fmtKeys (getHeaderKeys hRemoved)] }
      else cp
    let cp :=
      if hModified ≠ [] then
        { cp with changes := cp.changes ++ [str "Headers modified: " ++ fmtKeys (getHeaderKeys hModified)] }
      else cp
    let cp :=
      if b.body ≠ t.body then
        { cp with bodyChanged := true,
                  bodySizeDiff := (t.body.length : Int) - (b.body.length : Int),
                  changes := cp.changes ++ [str "Body changed: " ++ intChars b.body.length
                    ++ str " bytes -> " ++ intChars t.body.length ++ str " bytes (diff: "
                    ++ intChars ((t.body.length : Int) - (b.body.length : Int)) ++ str ")"] }
      else cp
    let cp :=
      if b.hasError ≠ t.hasError then
        { cp with changes := cp.changes ++ [str "Error state changed: " ++ boolChars b.hasError
          ++ str " -> " ++ boolChars t.hasError] }
      else cp
    cp
  | _, _ =>
    { comparison with changes := comparison.changes ++ [str "invalid baseline/test response"] }

/-! Detector, from internal/detector/detector.go (the revision with the
shared finalizeResult and the strong-signal gate). -/

/-- Model of detector.Detector: the configured confidence threshold. -/
structure Detector where
  confidenceThreshold : ℚ := 1/2
deriving DecidableEq, Repr

/-- Model of NewDetector: default threshold one half. -/
def NewDetector : Detector := { confidenceThreshold := 1/2 }

/-- Model of SetConfidenceThreshold: clamp the requested threshold into the
unit interval. -/
def SetConfidenceThreshold (threshold : ℚ) : Detector :=
  let threshold := if threshold < 0 then 0 else threshold
  let threshold := if threshold > 1 then 1 else threshold
  { confidenceThreshold := threshold }

/-- Model of headerExistsCaseInsensitive: some key of the map equals the
target up to case. -/
def headerExistsCaseInsensitive (headers : List (Str × Str)) (target : Str) : Bool :=
  headers.any (fun p => decide (toLowerStr p.1 = toLowerStr target))

/-- Model of finalizeResult: clamp the summed confidence at one, flag the
result suspicious exactly when a strong signal fired and the clamped
confidence reaches the threshold, and record the timing difference and the
fired signals. -/
def finalizeResult (d : Detector) (result : ScanResult) (confidence : ℚ)
    (strongSignal : Bool) (comparison : BaselineComparison) (signals : List Str) : ScanResult :=
  let confidence := if confidence > 1 then 1 else confidence
  { result with
      confidence := confidence,
      suspicious := strongSignal && decide (confidence ≥ d.confidenceThreshold),
      responseTimeDiff := comparison.timingDiffMS,
      signals := signals }

/-- Model of AnalyzeCLTE: the six weighted CL.TE signals accumulated in
source order (each conditional increment written as adding the weight or
zero), finalized by finalizeResult. -/
def AnalyzeCLTE (d : Detector) (target : Str) (cp : BaselineComparison) : ScanResult :=
  let result : ScanResult :=
    { target := target, technique := str "CL.TE",
      baselineResponse := cp.baseline, testResponse := cp.test }
  let hit1 := cp.statusCodeChanged && decide (cp.newStatusCode = 400)
  let c1 : ℚ := 0 + (if hit1 then 0.25 else 0)
  let st1 := false || hit1
  let sg1 : List Str := [] ++ (if hit1 then [str "Backend returned 400 (malformed request detection)"] else [])
  let hit2 := cp.statusCodeChanged && decide (cp.newStatusCode ≥ 500)
  let c2 := c1 + (if hit2 then 0.35 else 0)
  let st2 := st1 || hit2
  let sg2 := sg1 ++ (if hit2 then [str "Backend returned 5xx error (possible parser confusion)"] else [])
  let hit3 := decide (cp.timingDiffMS < -30)
  let c3 := c2 + (if hit3 then 0.15 else 0)
  let sg3 := sg2 ++ (if hit3 then [str "Response " ++ intChars (-cp.timingDiffMS)
    ++ str " ms faster (possible early rejection)"] else [])
  let hit4 := cp.connectionBehaviorChanged && cp.newConnectionClosed
  let c4 := c3 + (if hit4 then 0.20 else 0)
  let st4 := st2 || hit4
  let sg4 := sg3 ++ (if hit4 then [str "Server closed connection (possible state confusion)"] else [])
  let hit5 := cp.bodyChanged && decide (cp.bodySizeDiff < -200)
  let c5 := c4 + (if hit5 then 0.15 else 0)
  let sg5 := sg4 ++ (if hit5 then [str "Response body " ++ intChars (-cp.bodySizeDiff)
    ++ str " bytes smaller (possible content absorption)"] else [])
  let hit6 := headerExistsCaseInsensitive cp.headersRemoved (str "Transfer-Encoding")
  let c6 := c5 + (if hit6 then 0.10 else 0)
  let sg6 := sg5 ++ (if hit6 then [str "Transfer-Encoding header removed by backend"] else [])
  finalizeResult d result c6 st4 cp sg6

/-- Model of AnalyzeTECL: the six weighted TE.CL signals accumulated in
source order, finalized by finalizeResult. -/
def AnalyzeTECL (d : Detector) (target : Str) (cp : BaselineComparison) : ScanResult :=
  let result : ScanResult :=
    { target := target, technique := str "TE.CL",
      baselineResponse := cp.baseline, testResponse := cp.test }
  let hit1 := cp.statusCodeChanged && decide (cp.newStatusCode = 400)
  let c1 : ℚ := 0 + (if hit1 then 0.25 else 0)
  let st1 := false || hit1
  let sg1 : List Str := [] ++ (if hit1 then [str "Backend returned 400 (parsing error)"] else [])
  let hit2 := cp.statusCodeChanged && decide (cp.newStatusCode ≥ 500)
  let c2 := c1 + (if hit2 then 0.35 else 0)
  let st2 := st1 || hit2
  let sg2 := sg1 ++ (if hit2 then [str "Backend returned 5xx error (server confusion)"] else [])
  let hit3 := decide (cp.timingDiffMS > 1000)
  let c3 := c2 + (if hit3 then 0.25 else 0)
  let sg3 := sg2 ++ (if hit3 then [str "Response " ++ intChars cp.timingDiffMS
    ++ str " ms slower (possible chunk reassembly delay)"] else [])
  let hit4 := cp.connectionBehaviorChanged && cp.newConnectionClosed
  let c4 := c3 + (if hit4 then 0.20 else 0)
  let st4 := st2 || hit4
  let sg4 := sg3 ++ (if hit4 then [str "Server closed connection (chunked parsing failure)"] else [])
  let hit5 := cp.bodyChanged
  let c5 := c4 + (if hit5 then 0.10 else 0)
  let sg5 := sg4 ++ (if hit5 then [str "Response body changed by " ++ intChars cp.bodySizeDiff
    ++ str " bytes"] else [])
  let hit6 := headerExistsCaseInsensitive cp.headersAdded (str "Content-Length")
  let c6 := c5 + (if hit6 then 0.10 else 0)
  let sg6 := sg5 ++ (if hit6 then [str "Content-Length header added by backend"] else [])
  finalizeResult d result c6 st4 cp sg6

/-- Model of AnalyzeMixedTE: the three weighted Mixed-TE signals accumulated
in source order, finalized by finalizeResult. -/
def AnalyzeMixedTE (d : Detector) (target : Str) (cp : BaselineComparison) : ScanResult :=
  let result : ScanResult :=
    { target := target, technique := str "Mixed-TE",
      baselineResponse := cp.baseline, testResponse := cp.test }
  let hit1 := cp.statusCodeChanged && decide (cp.newStatusCode = 400)
  let c1 : ℚ := 0 + (if hit1 then 0.30 else 0)
  let st1 := false || hit1
  let sg1 : List Str := [] ++ (if hit1 then [str "Backend rejected mixed TE header"] else [])
  let hit2 := cp.statusCodeChanged && decide (cp.newStatusCode ≥ 500)
  let c2 := c1 + (if hit2 then 0.40 else 0)
  let st2 := st1 || hit2
  let sg2 := sg1 ++ (if hit2 then [str "Server error from TE header ambiguity"] else [])
  let hit3 := cp.connectionBehaviorChanged && cp.newConnectionClosed
  let c3 := c2 + (if hit3 then 0.20 else 0)
  let st3 := st2 || hit3
  let sg3 := sg2 ++ (if hit3 then [str "Connection reset (TE parser confusion)"] else [])
  finalizeResult d result c3 st3 cp sg3

/-- Model of AnalyzeObfuscatedTE: the six weighted Obfuscated-TE signals
accumulated in source order, finalized by finalizeResult. -/
def AnalyzeObfuscatedTE (d : Detector) (target : Str) (cp : BaselineComparison) : ScanResult :=
  let result : ScanResult :=
    { target := target, technique := str "Obfuscated-TE",
      baselineResponse := cp.baseline, testResponse := cp.test }
  let hit1 := cp.statusCodeChanged && decide (cp.newStatusCode = 400)
  let c1 : ℚ := 0 + (if hit1 then 0.25 else 0)
  let st1 := false || hit1
  let sg1 : List Str := [] ++ (if hit1 then [str "Backend returned 400 (obfuscated TE rejection or malformed request)"] else [])
  let hit2 := cp.statusCodeChanged && decide (cp.newStatusCode ≥ 500)
  let c2 := c1 + (if hit2 then 0.35 else 0)
  let st2 := st1 || hit2
  let sg2 := sg1 ++ (if hit2 then [str "Backend returned 5xx error (TE obfuscation parser confusion)"] else [])
  let hit3 := decide (cp.timingDiffMS < -30)
  let c3 := c2 + (if hit3 then 0.15 else 0)
  let sg3 := sg2 ++ (if hit3 then [str "Response " ++ intChars (-cp.timingDiffMS)
    ++ str " ms faster (obfuscated TE caused early rejection)"] else [])
  let hit4 := cp.connectionBehaviorChanged && cp.newConnectionClosed
  let c4 := c3 + (if hit4 then 0.20 else 0)
  let st4 := st2 || hit4
  let sg4 := sg3 ++ (if hit4 then [str "Server closed connection (TE obfuscation parser failure)"] else [])
  let hit5 := cp.bodyChanged && decide (cp.bodySizeDiff < -200)
  let c5 := c4 + (if hit5 then 0.15 else 0)
  let sg5 := sg4 ++ (if hit5 then [str "Response body " ++ intChars (-cp.bodySizeDiff)
    ++ str " bytes smaller (obfuscated TE caused content absorption)"] else [])
  let hit6 := headerExistsCaseInsensitive cp.headersRemoved (str "Transfer-Encoding")
  let c6 := c5 + (if hit6 then 0.10 else 0)
  let sg6 := sg5 ++ (if hit6 then [str "Transfer-Encoding header removed (backend rejected obfuscation)"] else [])
  finalizeResult d result c6 st4 cp sg6

/-! Scanner, from internal/scanner/scanner.go: the GPOST poisoning
classification and the advisory-service verdict update. -/

/-- Model of the classification step of TestCLTE_GPOST: the probe response is
suspicious when its raw bytes, uppercased, contain the corrupted method token
GPOST, or an unrecognized-method phrase, or when the status code is 405 or
400 and differs from the baseline status code. -/
def classifyGPOST (resp2 : HTTPResponse) (baselineStatusCode : Int) : Bool :=
  if containsStr (toUpperStr resp2.raw) (str "GPOST") then true
  else if containsStr (toUpperStr resp2.raw) (str "UNRECOGNIZED METHOD") then true
  else if resp2.statusCode = 405 ∨ resp2.statusCode = 400 then
    if resp2.statusCode ≠ baselineStatusCode then true else false
  else false

/-- Model of runAIAnalysis as a state update on the local verdict: an error
from the provider leaves the verdict untouched; a nil or zero-confidence
assessment leaves it untouched; otherwise the backward-compatibility
confidence score is raised to the assessment confidence when that is
strictly higher, and a non-suspicious verdict is upgraded when the
assessment asserts vulnerability. -/
def runAIAnalysisUpdate (result : ScanResult)
    (callOutcome : Except Unit (Option AnalysisResult)) : ScanResult :=
  match callOutcome with
  | Except.error _ => result
  | Except.ok none => result
  | Except.ok (some a) =>
    if decide (a.confidence > 0) then
      let result :=
        if decide (a.confidence > result.confidenceScore) then
          { result with confidenceScore := a.confidence }
        else result
      let result :=
        if a.isVulnerable && !result.suspicious then
          { result with suspicious := true }
        else result
      result
    else result

/-! Lemmas about the CRLF split and join used by the response parser. -/

theorem splitCRLF_ne_nil : ∀ l : Str, splitCRLF l ≠ []
  | [] => by simp [splitCRLF]
  | [c] => by simp [splitCRLF]
  | c₁ :: c₂ :: rest => by
    simp only [splitCRLF]
    split
    · simp
    · split
      · simp
      · simp

theorem joinCRLF_cons (x : Str) (ps : List Str) (h : ps ≠ []) :
    joinCRLF (x :: ps) = x ++ '\r' :: '\n' :: joinCRLF ps := by
  cases ps with
  | nil => exact absurd rfl h
  | cons y t => rfl

theorem joinCRLF_splitCRLF : ∀ l : Str, joinCRLF (splitCRLF l) = l
  | [] => rfl
  | [c] => rfl
  | c₁ :: c₂ :: rest => by
    by_cases h : c₁ = '\r' ∧ c₂ = '\n'
    · obtain ⟨h1, h2⟩ := h
      subst h1
      subst h2
      have ih := joinCRLF_splitCRLF rest
      simp only [splitCRLF, and_self, if_true]
      rw [joinCRLF_cons _ _ (splitCRLF_ne_nil rest), ih]
      rfl
    · have ih := joinCRLF_splitCRLF (c₂ :: rest)
      simp only [splitCRLF, if_neg h]
      rcases hs : splitCRLF (c₂ :: rest) with _ | ⟨hd, tl⟩
      · exact absurd hs (splitCRLF_ne_nil _)
      · rw [hs] at ih
        cases tl with
        | nil =>
          simp only [joinCRLF] at ih ⊢
          rw [ih]
        | cons z t2 =>
          rw [joinCRLF_cons hd (z :: t2) (by simp)] at ih
          rw [joinCRLF_cons (c₁ :: hd) (z :: t2) (by simp)]
          rw [List.cons_append, ih]
termination_by l => l.length

theorem joinCRLF_suffix_cons (x : Str) (ps : List Str) : joinCRLF ps <:+ joinCRLF (x :: ps) := by
  cases ps with
  | nil => exact List.nil_suffix
  | cons y t =>
    refine ⟨x ++ ['\r', '\n'], ?_⟩
    rw [joinCRLF_cons x (y :: t) (by simp)]
    simp

theorem joinCRLF_drop_suffix : ∀ (k : Nat) (ps : List Str), joinCRLF (ps.drop k) <:+ joinCRLF ps
  | 0, _ => List.suffix_refl _
  | _ + 1, [] => by simp
  | k + 1, x :: xs => (joinCRLF_drop_suffix k xs).trans (joinCRLF_suffix_cons x xs)

theorem infix_map_chars (f : Char → Char) {l₁ l₂ : Str} (h : l₁ <:+: l₂) :
    l₁.map f <:+: l₂.map f := by
  obtain ⟨s, t, rfl⟩ := h
  exact ⟨s.map f, t.map f, by simp⟩

/-- The body extracted by parseHTTPResponse is always a contiguous run of the
raw bytes. -/
theorem suffix_within {l₁ l₂ : Str} (h : l₁ <:+ l₂) : l₁ <:+: l₂ := by
  obtain ⟨s, rfl⟩ := h
  exact ⟨s, [], by simp⟩

theorem nil_within (l : Str) : ([] : Str) <:+: l := ⟨[], l, rfl⟩

theorem parseHTTPResponse_body_within (raw : Str) : (parseHTTPResponse raw).body <:+: raw := by
  rw [parseHTTPResponse]
  split
  · simp [HTTPResponse.body]
  · rcases hs : splitCRLF raw with _ | ⟨statusLine, restLines⟩
    · exact absurd hs (splitCRLF_ne_nil raw)
    · simp only [hs]
      split
      next he heq =>
        split
        next hlt =>
          have h1 := joinCRLF_drop_suffix (he + 1) (splitCRLF raw)
          rw [joinCRLF_splitCRLF, hs] at h1
          exact suffix_within h1
        next hlt => exact nil_within raw
      next heq => exact nil_within raw

/-! Lemmas about the association-list model of header maps. -/

/-- Keys of a header map. -/
def keysOf (m : List (Str × Str)) : List Str := m.map (fun p => p.1)

theorem insertKV_keys_nodup (m : List (Str × Str)) (k v : Str) (h : (keysOf m).Nodup) :
    (keysOf (insertKV m k v)).Nodup := by
  unfold insertKV
  split
  next hfind =>
    have hkeys : keysOf (m.map (fun p => if p.1 = k then (k, v) else p)) = keysOf m := by
      unfold keysOf
      rw [List.map_map]
      apply List.map_congr_left
      intro p _
      by_cases hpk : p.1 = k
      · simp [hpk]
      · simp [hpk]
    rw [hkeys]
    exact h
  next hfind =>
    have hk : k ∉ keysOf m := by
      intro hmem
      obtain ⟨p, hp, hpk⟩ := List.mem_map.mp hmem
      exact hfind (List.find?_isSome.mpr ⟨p, hp, by simp [hpk]⟩)
    unfold keysOf at h hk ⊢
    rw [List.map_append]
    simp only [List.map_cons, List.map_nil]
    rw [List.nodup_append]
    refine ⟨h, List.nodup_singleton k, ?_⟩
    intro a ha hb
    rw [List.mem_singleton] at hb
    exact hk (hb ▸ ha)

theorem normalize_keys_nodup (src : List (Str × Str)) :
    (keysOf (normalizeHeaderMap src)).Nodup := by
  unfold normalizeHeaderMap
  suffices h : ∀ acc : List (Str × Str), (keysOf acc).Nodup →
      (keysOf (src.foldl (fun out p => insertKV out (toLowerStr p.1) p.2) acc)).Nodup by
    exact h [] (by simp [keysOf])
  induction src with
  | nil =>
    intro acc hacc
    simpa using hacc
  | cons p rest ih =>
    intro acc hacc
    simp only [List.foldl_cons]
    exact ih _ (insertKV_keys_nodup _ _ _ hacc)

theorem lookupKV_self (m : List (Str × Str)) (h : (keysOf m).Nodup) :
    ∀ p : Str × Str, p ∈ m → lookupKV m p.1 = some p.2 := by
  induction m with
  | nil =>
    intro p hp
    cases hp
  | cons q rest ih =>
    intro p hp
    have hkeys : keysOf (q :: rest) = q.1 :: keysOf rest := rfl
    rw [hkeys] at h
    have hnd := List.nodup_cons.mp h
    rcases List.mem_cons.mp hp with rfl | hmem
    · unfold lookupKV
      rw [List.find?_cons_of_pos _ (by simp)]
      rfl
    · have hne : ¬(q.1 = p.1) := by
        intro he
        exact hnd.1 (he ▸ List.mem_map_of_mem (fun x => x.1) hmem)
      unfold lookupKV
      rw [List.find?_cons_of_neg _ (by simpa using hne)]
      exact ih hnd.2 p hmem

theorem headersRemovedOf_self (n : List (Str × Str)) (h : (keysOf n).Nodup) :
    headersRemovedOf n n = [] := by
  unfold headersRemovedOf
  rw [List.filter_eq_nil_iff]
  intro p hp
  rw [lookupKV_self n h p hp]
  simp

theorem headersModifiedOf_self (n : List (Str × Str)) (h : (keysOf n).Nodup) :
    headersModifiedOf n n = [] := by
  unfold headersModifiedOf
  rw [List.filterMap_eq_nil_iff]
  intro p hp
  rw [lookupKV_self n h p hp]
  simp

theorem headersAddedOf_self (n : List (Str × Str)) (h : (keysOf n).Nodup) :
    headersAddedOf n n = [] := by
  unfold headersAddedOf
  rw [List.filter_eq_nil_iff]
  intro p hp
  rw [lookupKV_self n h p hp]
  simp

/-- Comparing any decoded response against itself records no differences. -/
theorem CompareResponses_self (r : HTTPResponse) :
    CompareResponses (some r) (some r) =
      { baseline := some r, test := some r } := by
  have hnd := normalize_keys_nodup r.headers
  have h1 := headersRemovedOf_self _ hnd
  have h2 := headersModifiedOf_self _ hnd
  have h3 := headersAddedOf_self _ hnd
  simp [CompareResponses, h1, h2, h3]

/-! Specification-side signal tables.  Each detector technique is specified
by a table of weighted signals; the confidence of a verdict should be the
clamped sum of the fired weights, and the verdict suspicious exactly when a
strong signal fired and that sum reaches the threshold.  These tables are
the specification against which the analyzer translations are compared. -/

/-- A single weighted detection signal: its weight, whether it is strong, and
the condition on the comparison under which it fires. -/
structure SignalSpec where
  weight : ℚ
  strong : Bool
  fires : BaselineComparison → Bool

/-- The CL.TE signal table from the specification. -/
def clteSignals : List SignalSpec :=
  [ ⟨0.25, true, fun cp => cp.statusCodeChanged && decide (cp.newStatusCode = 400)⟩,
    ⟨0.35, true, fun cp => cp.statusCodeChanged && decide (cp.newStatusCode ≥ 500)⟩,
    ⟨0.15, false, fun cp => decide (cp.timingDiffMS < -30)⟩,
    ⟨0.20, true, fun cp => cp.connectionBehaviorChanged && cp.newConnectionClosed⟩,
    ⟨0.15, false, fun cp => cp.bodyChanged && decide (cp.bodySizeDiff < -200)⟩,
    ⟨0.10, false, fun cp => headerExistsCaseInsensitive cp.headersRemoved (str "Transfer-Encoding")⟩ ]

/-- The TE.CL signal table from the specification. -/
def teclSignals : List SignalSpec :=
  [ ⟨0.25, true, fun cp => cp.statusCodeChanged && decide (cp.newStatusCode = 400)⟩,
    ⟨0.35, true, fun cp => cp.statusCodeChanged && decide (cp.newStatusCode ≥ 500)⟩,
    ⟨0.25, false, fun cp => decide (cp.timingDiffMS > 1000)⟩,
    ⟨0.20, true, fun cp => cp.connectionBehaviorChanged && cp.newConnectionClosed⟩,
    ⟨0.10, false, fun cp => cp.bodyChanged⟩,
    ⟨0.10, false, fun cp => headerExistsCaseInsensitive cp.headersAdded (str "Content-Length")⟩ ]

/-- The Mixed-TE signal table from the specification. -/
def mixedTESignals : List SignalSpec :=
  [ ⟨0.30, true, fun cp => cp.statusCodeChanged && decide (cp.newStatusCode = 400)⟩,
    ⟨0.40, true, fun cp => cp.statusCodeChanged && decide (cp.newStatusCode ≥ 500)⟩,
    ⟨0.20, true, fun cp => cp.connectionBehaviorChanged && cp.newConnectionClosed⟩ ]

/-- The Obfuscated-TE signal table from the specification. -/
def obfuscatedTESignals : List SignalSpec :=
  [ ⟨0.25, true, fun cp => cp.statusCodeChanged && decide (cp.newStatusCode = 400)⟩,
    ⟨0.35, true, fun cp => cp.statusCodeChanged && decide (cp.newStatusCode ≥ 500)⟩,
    ⟨0.15, false, fun cp => decide (cp.timingDiffMS < -30)⟩,
    ⟨0.20, true, fun cp => cp.connectionBehaviorChanged && cp.newConnectionClosed⟩,
    ⟨0.15, false, fun cp => cp.bodyChanged && decide (cp.bodySizeDiff < -200)⟩,
    ⟨0.10, false, fun cp => headerExistsCaseInsensitive cp.headersRemoved (str "Transfer-Encoding")⟩ ]

/-- Sum of the weights of the fired signals of a table. -/
def sumFiredWeights (tbl : List SignalSpec) (cp : BaselineComparison) : ℚ :=
  (tbl.map (fun s => if s.fires cp then s.weight else 0)).sum

/-- Whether some strong signal of a table fired. -/
def strongFired (tbl : List SignalSpec) (cp : BaselineComparison) : Bool :=
  tbl.any (fun s => s.strong && s.fires cp)

/-- Clamp at one, as finalizeResult applies it. -/
def clampRat (c : ℚ) : ℚ := if c > 1 then 1 else c

theorem clampRat_eq_min (c : ℚ) : clampRat c = min c 1 := by
  unfold clampRat
  rw [min_def]
  split_ifs <;> linarith

theorem analyzeCLTE_weighted (d : Detector) (tgt : Str) (cp : BaselineComparison) :
    (AnalyzeCLTE d tgt cp).confidence = min (sumFiredWeights clteSignals cp) 1 ∧
    ((AnalyzeCLTE d tgt cp).suspicious = true ↔
      strongFired clteSignals cp = true ∧
        d.confidenceThreshold ≤ min (sumFiredWeights clteSignals cp) 1) := by
  have key : ∃ C ST, (AnalyzeCLTE d tgt cp).confidence = clampRat C ∧
      (AnalyzeCLTE d tgt cp).suspicious = (ST && decide (clampRat C ≥ d.confidenceThreshold)) ∧
      C = sumFiredWeights clteSignals cp ∧ ST = strongFired clteSignals cp := by
    refine ⟨_, _, rfl, rfl, ?_, ?_⟩
    · simp only [sumFiredWeights, clteSignals, List.map_cons, List.map_nil, List.sum_cons,
        List.sum_nil]
      ring
    · simp only [strongFired, clteSignals, List.any_cons, List.any_nil, Bool.true_and,
        Bool.false_and, Bool.or_false, Bool.false_or]
      rw [Bool.or_assoc]
  obtain ⟨C, ST, hconf, hsusp, hC, hST⟩ := key
  constructor
  · rw [hconf, hC, clampRat_eq_min]
  · rw [hsusp, hST, hC, clampRat_eq_min]
    simp [Bool.and_eq_true, decide_eq_true_eq, ge_iff_le]

theorem analyzeTECL_weighted (d : Detector) (tgt : Str) (cp : BaselineComparison) :
    (AnalyzeTECL d tgt cp).confidence = min (sumFiredWeights teclSignals cp) 1 ∧
    ((AnalyzeTECL d tgt cp).suspicious = true ↔
      strongFired teclSignals cp = true ∧
        d.confidenceThreshold ≤ min (sumFiredWeights teclSignals cp) 1) := by
  have key : ∃ C ST, (AnalyzeTECL d tgt cp).confidence = clampRat C ∧
      (AnalyzeTECL d tgt cp).suspicious = (ST && decide (clampRat C ≥ d.confidenceThreshold)) ∧
      C = sumFiredWeights teclSignals cp ∧ ST = strongFired teclSignals cp := by
    refine ⟨_, _, rfl, rfl, ?_, ?_⟩
    · simp only [sumFiredWeights, teclSignals, List.map_cons, List.map_nil, List.sum_cons,
        List.sum_nil]
      ring
    · simp only [strongFired, teclSignals, List.any_cons, List.any_nil, Bool.true_and,
        Bool.false_and, Bool.or_false, Bool.false_or]
      rw [Bool.or_assoc]
  obtain ⟨C, ST, hconf, hsusp, hC, hST⟩ := key
  constructor
  · rw [hconf, hC, clampRat_eq_min]
  · rw [hsusp, hST, hC, clampRat_eq_min]
    simp [Bool.and_eq_true, decide_eq_true_eq, ge_iff_le]

theorem analyzeMixedTE_weighted (d : Detector) (tgt : Str) (cp : BaselineComparison) :
    (AnalyzeMixedTE d tgt cp).confidence = min (sumFiredWeights mixedTESignals cp) 1 ∧
    ((AnalyzeMixedTE d tgt cp).suspicious = true ↔
      strongFired mixedTESignals cp = true ∧
        d.confidenceThreshold ≤ min (sumFiredWeights mixedTESignals cp) 1) := by
  have key : ∃ C ST, (AnalyzeMixedTE d tgt cp).confidence = clampRat C ∧
      (AnalyzeMixedTE d tgt cp).suspicious = (ST && decide (clampRat C ≥ d.confidenceThreshold)) ∧
      C = sumFiredWeights mixedTESignals cp ∧ ST = strongFired mixedTESignals cp := by
    refine ⟨_, _, rfl, rfl, ?_, ?_⟩
    · simp only [sumFiredWeights, mixedTESignals, List.map_cons, List.map_nil, List.sum_cons,
        List.sum_nil]
      ring
    · simp only [strongFired, mixedTESignals, List.any_cons, List.any_nil, Bool.true_and,
        Bool.false_and, Bool.or_false, Bool.false_or]
      rw [Bool.or_assoc]
  obtain ⟨C, ST, hconf, hsusp, hC, hST⟩ := key
  constructor
  · rw [hconf, hC, clampRat_eq_min]
  · rw [hsusp, hST, hC, clampRat_eq_min]
    simp [Bool.and_eq_true, decide_eq_true_eq, ge_iff_le]

theorem analyzeObfuscatedTE_weighted (d : Detector) (tgt : Str) (cp : BaselineComparison) :
    (AnalyzeObfuscatedTE d tgt cp).confidence = min (sumFiredWeights obfuscatedTESignals cp) 1 ∧
    ((AnalyzeObfuscatedTE d tgt cp).suspicious = true ↔
      strongFired obfuscatedTESignals cp = true ∧
        d.confidenceThreshold ≤ min (sumFiredWeights obfuscatedTESignals cp) 1) := by
  have key : ∃ C ST, (AnalyzeObfuscatedTE d tgt cp).confidence = clampRat C ∧
      (AnalyzeObfuscatedTE d tgt cp).suspicious = (ST && decide (clampRat C ≥ d.confidenceThreshold)) ∧
      C = sumFiredWeights obfuscatedTESignals cp ∧ ST = strongFired obfuscatedTESignals cp := by
    refine ⟨_, _, rfl, rfl, ?_, ?_⟩
    · simp only [sumFiredWeights, obfuscatedTESignals, List.map_cons, List.map_nil, List.sum_cons,
        List.sum_nil]
      ring
    · simp only [strongFired, obfuscatedTESignals, List.any_cons, List.any_nil, Bool.true_and,
        Bool.false_and, Bool.or_false, Bool.false_or]
      rw [Bool.or_assoc]
  obtain ⟨C, ST, hconf, hsusp, hC, hST⟩ := key
  constructor
  · rw [hconf, hC, clampRat_eq_min]
  · rw [hsusp, hST, hC, clampRat_eq_min]
    simp [Bool.and_eq_true, decide_eq_true_eq, ge_iff_le]

/-- The parser stores the raw bytes unchanged. -/
theorem parseHTTPResponse_raw (raw : Str) : (parseHTTPResponse raw).raw = raw := by
  rw [parseHTTPResponse]
  split
  · rfl
  · rcases hs : splitCRLF raw with _ | ⟨s, r⟩
    · exact absurd hs (splitCRLF_ne_nil raw)
    · simp only [hs]

/-! Claim theorems. -/

/-- Claim C1, counterexample: at the concrete base request and the one-byte
smuggled body, GenerateCLTE declares Content-Length 14 while exactly 13 bytes
(the chunk-terminator sequence) lie between the blank line ending the headers
and the first byte of the smuggled body; the historical revision declares 6,
which is not 13 either.  So the declared value does not equal the byte count
up to the smuggled body for either revision. -/
theorem C1_counterexample :
    GenerateCLTE (str "GET / HTTP/1.1\r\nHost: h\r\n") (str "G")
      = str "GET / HTTP/1.1\r\nHost: h\r\n" ++ str "Transfer-Encoding: chunked\r\n"
        ++ str "Content-Length: 14\r\n" ++ str "\r\n" ++ buildChunkedPrefixStr ++ str "G" ∧
    buildChunkedPrefixStr.length = 13 ∧ (14 : ℕ) ≠ 13 ∧
    GenerateCLTE_rev004 (str "GET / HTTP/1.1\r\nHost: h\r\n") (str "G")
      = str "GET / HTTP/1.1\r\nHost: h\r\n" ++ str "Transfer-Encoding: chunked\r\n"
        ++ str "Content-Length: 6\r\n" ++ str "\r\n" ++ buildChunkedPrefixStr ++ str "G" ∧
    (6 : ℕ) ≠ 13 := by
  refine ⟨by decide, by decide, by decide, by decide, by decide⟩

/-- Claim C1, amended: for every non-empty base request and non-empty smuggled
body, the CL.TE payload declares a Content-Length equal to the byte length of
the entire chunked body that follows the blank line, namely the 13-byte
chunk-terminator sequence plus the smuggled body, so the declared value
exceeds the byte count up to the smuggled body start by the smuggled body
length. -/
theorem C1_declared_length (base sm : Str) (hb : base ≠ []) (hsm : sm ≠ []) :
    GenerateCLTE base sm
      = base ++ str "Transfer-Encoding: chunked\r\n"
        ++ str "Content-Length: " ++ natChars (13 + sm.length) ++ str "\r\n" ++ str "\r\n"
        ++ buildChunkedPrefixStr ++ sm ∧
    buildChunkedPrefixStr.length = 13 := by
  constructor
  · have hp : buildChunkedPrefixStr.length = 13 := by decide
    have h13 : (buildChunkedPrefixStr ++ sm).length = 13 + sm.length := by
      rw [List.length_append, hp]
    simp only [GenerateCLTE, h13]
    simp [List.append_assoc]
  · decide

theorem C1_declared_length_witness :
    GenerateCLTE (str "X\r\n") (str "G")
      = str "X\r\n" ++ str "Transfer-Encoding: chunked\r\n"
        ++ str "Content-Length: " ++ natChars (13 + (str "G").length) ++ str "\r\n" ++ str "\r\n"
        ++ buildChunkedPrefixStr ++ str "G" ∧
    buildChunkedPrefixStr.length = 13 :=
  C1_declared_length (str "X\r\n") (str "G") (by decide) (by decide)

/-- Claim C4: evaluating the embedded SendRequest tail at a read trace in
which the peer closed the stream (final read error is end-of-stream) shows
the connection-closed flag stays false, although the claim and the field
documentation require it to be true exactly then; the timeout trace is
returned without error with the partial bytes and the flag false, which is
the half of the claim the code does satisfy. -/
theorem C4_connection_closed_eval :
    (sendRequestFinish [str "HTTP/1.1 200 OK\r\n\r\nhello"] ReadErrKind.eofErr 20).connectionClosed
      = false ∧
    (sendRequestFinish [str "HTTP/1.1 200 OK\r\n\r\npart"] ReadErrKind.timeoutErr 20).connectionClosed
      = false ∧
    (sendRequestFinish [str "HTTP/1.1 200 OK\r\n\r\npart"] ReadErrKind.timeoutErr 20).raw
      = str "HTTP/1.1 200 OK\r\n\r\npart" ∧
    (sendRequestFinish [str "HTTP/1.1 200 OK\r\n\r\nhello"] ReadErrKind.otherErr 20).connectionClosed
      = true := by
  refine ⟨rfl, rfl, ?_, rfl⟩
  show (parseHTTPResponse (List.flatten [str "HTTP/1.1 200 OK\r\n\r\npart"])).raw = _
  rw [parseHTTPResponse_raw]
  simp

/-- The status line of a raw response: the first CRLF-separated line. -/
def statusLineOf (raw : Str) : Str :=
  match splitCRLF raw with
  | [] => []
  | l :: _ => l

/-- Claim C8: whenever the second whitespace-separated token of the status
line is missing or does not scan as an integer, decoding succeeds (the parser
is a total function) and leaves the status code at its zero value. -/
theorem C8_malformed_status_zero (raw : Str)
    (h : ((fields (statusLineOf raw)).get? 1).bind scanInt = none) :
    (parseHTTPResponse raw).statusCode = 0 := by
  rw [parseHTTPResponse]
  split
  · rfl
  · rcases hs : splitCRLF raw with _ | ⟨statusLine, rest⟩
    · exact absurd hs (splitCRLF_ne_nil raw)
    · unfold statusLineOf at h
      rw [hs] at h
      simp only [hs]
      rcases hg : (fields statusLine).get? 1 with _ | tok
      · simp [hg]
      · rw [hg] at h
        simp only [Option.some_bind] at h
        simp [hg, h]

theorem C8_malformed_status_zero_witness :
    ((fields (statusLineOf (str "HTTP/1.1 OK\r\n\r\n"))).get? 1).bind scanInt = none ∧
    (parseHTTPResponse (str "HTTP/1.1 OK\r\n\r\n")).statusCode = 0 :=
  ⟨by decide, C8_malformed_status_zero _ (by decide)⟩

/-- Claim C10: with a missing baseline or test response, CompareResponses
returns the well-formed comparison whose flags are all false, whose header
deltas are empty, and whose only change note is the single invalid-input
entry; the missing response is never inspected. -/
theorem C10_nil_guard (b t : Option HTTPResponse) (h : b = none ∨ t = none) :
    CompareResponses b t =
      { baseline := b, test := t, changes := [str "invalid baseline/test response"] } := by
  rcases h with rfl | rfl
  · rfl
  · cases b with
    | none => rfl
    | some x => rfl

theorem C10_nil_guard_witness :
    CompareResponses none (some { statusCode := 200 }) =
      { baseline := none, test := some { statusCode := 200 },
        changes := [str "invalid baseline/test response"] } :=
  C10_nil_guard none (some { statusCode := 200 }) (Or.inl rfl)

theorem runAIAnalysisUpdate_confidence (r : ScanResult)
    (o : Except Unit (Option AnalysisResult)) :
    (runAIAnalysisUpdate r o).confidence = r.confidence := by
  rcases o with e | ma
  · rfl
  · rcases ma with _ | a
    · rfl
    · simp only [runAIAnalysisUpdate]
      split_ifs <;> rfl

theorem runAIAnalysisUpdate_score_mono (r : ScanResult)
    (o : Except Unit (Option AnalysisResult)) :
    r.confidenceScore ≤ (runAIAnalysisUpdate r o).confidenceScore := by
  rcases o with e | ma
  · exact le_refl _
  · rcases ma with _ | a
    · exact le_refl _
    · simp only [runAIAnalysisUpdate]
      split_ifs with h1 h2 h3 h4
      · exact le_of_lt (of_decide_eq_true h2)
      · exact le_of_lt (of_decide_eq_true h2)
      · exact le_refl _
      · exact le_refl _
      · exact le_refl _

theorem runAIAnalysisUpdate_suspicious_mono (r : ScanResult)
    (o : Except Unit (Option AnalysisResult)) (h : r.suspicious = true) :
    (runAIAnalysisUpdate r o).suspicious = true := by
  rcases o with e | ma
  · exact h
  · rcases ma with _ | a
    · exact h
    · simp only [runAIAnalysisUpdate]
      split_ifs <;> first | rfl | exact h

theorem runAIAnalysisUpdate_score_change (r : ScanResult)
    (o : Except Unit (Option AnalysisResult))
    (h : (runAIAnalysisUpdate r o).confidenceScore ≠ r.confidenceScore) :
    ∃ a, o = Except.ok (some a) ∧
      (runAIAnalysisUpdate r o).confidenceScore = a.confidence ∧
      r.confidenceScore < a.confidence := by
  rcases o with e | ma
  · exact absurd rfl h
  · rcases ma with _ | a
    · exact absurd rfl h
    · refine ⟨a, rfl, ?_⟩
      revert h
      simp only [runAIAnalysisUpdate]
      split_ifs with h1 h2 h3 h4
      · intro _
        exact ⟨rfl, of_decide_eq_true h2⟩
      · intro _
        exact ⟨rfl, of_decide_eq_true h2⟩
      · intro h
        exact absurd rfl h
      · intro h
        exact absurd rfl h
      · intro h
        exact absurd rfl h

theorem runAIAnalysisUpdate_suspicious_change (r : ScanResult)
    (o : Except Unit (Option AnalysisResult))
    (h : (runAIAnalysisUpdate r o).suspicious ≠ r.suspicious) :
    ∃ a, o = Except.ok (some a) ∧ a.isVulnerable = true ∧
      (runAIAnalysisUpdate r o).suspicious = true := by
  rcases o with e | ma
  · exact absurd rfl h
  · rcases ma with _ | a
    · exact absurd rfl h
    · refine ⟨a, rfl, ?_⟩
      revert h
      simp only [runAIAnalysisUpdate]
      split_ifs with h1 h2 h3 h4
      · intro _
        have h3' : a.isVulnerable = true ∧ (!r.suspicious) = true := by simpa using h3
        exact ⟨h3'.1, rfl⟩
      · intro h
        exact absurd rfl h
      · intro _
        have h4' : a.isVulnerable = true ∧ (!r.suspicious) = true := by simpa using h4
        exact ⟨h4'.1, rfl⟩
      · intro h
        exact absurd rfl h
      · intro h
        exact absurd rfl h

theorem runAIAnalysisUpdate_error (r : ScanResult)
    (o : Except Unit (Option AnalysisResult)) (e : Unit) (h : o = Except.error e) :
    runAIAnalysisUpdate r o = r := by
  subst h
  rfl

/-- Claim C9: applying the advisory assessment to a local verdict never
lowers either confidence field and never unsets a suspicious verdict; the
confidence score moves only up to a strictly higher assessment confidence,
the suspicious flag is set only when the assessment asserts vulnerability,
and a failed advisory call leaves the verdict entirely unchanged. -/
theorem C9_advisory_monotone (result : ScanResult)
    (outcome : Except Unit (Option AnalysisResult)) :
    (runAIAnalysisUpdate result outcome).confidence = result.confidence ∧
    result.confidenceScore ≤ (runAIAnalysisUpdate result outcome).confidenceScore ∧
    (result.suspicious = true → (runAIAnalysisUpdate result outcome).suspicious = true) ∧
    ((runAIAnalysisUpdate result outcome).confidenceScore ≠ result.confidenceScore →
      ∃ a, outcome = Except.ok (some a) ∧
        (runAIAnalysisUpdate result outcome).confidenceScore = a.confidence ∧
        result.confidenceScore < a.confidence) ∧
    ((runAIAnalysisUpdate result outcome).suspicious ≠ result.suspicious →
      ∃ a, outcome = Except.ok (some a) ∧ a.isVulnerable = true ∧
        (runAIAnalysisUpdate result outcome).suspicious = true) ∧
    (∀ e : Unit, outcome = Except.error e → runAIAnalysisUpdate result outcome = result) :=
  ⟨runAIAnalysisUpdate_confidence result outcome,
   runAIAnalysisUpdate_score_mono result outcome,
   runAIAnalysisUpdate_suspicious_mono result outcome,
   runAIAnalysisUpdate_score_change result outcome,
   runAIAnalysisUpdate_suspicious_change result outcome,
   runAIAnalysisUpdate_error result outcome⟩

theorem C9_advisory_monotone_witness :
    (runAIAnalysisUpdate { confidenceScore := 1/4 }
        (Except.ok (some { isVulnerable := true, confidence := 3/4 }))).confidence
      = ({ confidenceScore := 1/4 } : ScanResult).confidence ∧
    ({ confidenceScore := 1/4 } : ScanResult).confidenceScore ≤
      (runAIAnalysisUpdate { confidenceScore := 1/4 }
        (Except.ok (some { isVulnerable := true, confidence := 3/4 }))).confidenceScore ∧
    (({ confidenceScore := 1/4 } : ScanResult).suspicious = true →
      (runAIAnalysisUpdate { confidenceScore := 1/4 }
        (Except.ok (some { isVulnerable := true, confidence := 3/4 }))).suspicious = true) ∧
    ((runAIAnalysisUpdate { confidenceScore := 1/4 }
        (Except.ok (some { isVulnerable := true, confidence := 3/4 }))).confidenceScore ≠
          ({ confidenceScore := 1/4 } : ScanResult).confidenceScore →
      ∃ a, (Except.ok (some { isVulnerable := true, confidence := 3/4 }) :
              Except Unit (Option AnalysisResult)) = Except.ok (some a) ∧
        (runAIAnalysisUpdate { confidenceScore := 1/4 }
          (Except.ok (some { isVulnerable := true, confidence := 3/4 }))).confidenceScore
            = a.confidence ∧
        ({ confidenceScore := 1/4 } : ScanResult).confidenceScore < a.confidence) ∧
    ((runAIAnalysisUpdate { confidenceScore := 1/4 }
        (Except.ok (some { isVulnerable := true, confidence := 3/4 }))).suspicious ≠
          ({ confidenceScore := 1/4 } : ScanResult).suspicious →
      ∃ a, (Except.ok (some { isVulnerable := true, confidence := 3/4 }) :
              Except Unit (Option AnalysisResult)) = Except.ok (some a) ∧
        a.isVulnerable = true ∧
        (runAIAnalysisUpdate { confidenceScore := 1/4 }
          (Except.ok (some { isVulnerable := true, confidence := 3/4 }))).suspicious = true) ∧
    (∀ e : Unit, (Except.ok (some { isVulnerable := true, confidence := 3/4 }) :
        Except Unit (Option AnalysisResult)) = Except.error e →
      runAIAnalysisUpdate { confidenceScore := 1/4 }
        (Except.ok (some { isVulnerable := true, confidence := 3/4 }))
          = { confidenceScore := 1/4 }) :=
  C9_advisory_monotone { confidenceScore := 1/4 }
    (Except.ok (some { isVulnerable := true, confidence := 3/4 }))

/-- Claim C5: whenever the decoded probe response body contains the corrupted
method token GPOST, the two-step poisoning classification is suspicious,
regardless of the status code or the timing (neither is consulted on this
path: the raw bytes contain the body, so the uppercased substring check
fires first). -/
theorem C5_gpost_suspicious (raw : Str) (baselineStatusCode : Int)
    (h : str "GPOST" <:+: (parseHTTPResponse raw).body) :
    classifyGPOST (parseHTTPResponse raw) baselineStatusCode = true := by
  have hbody := parseHTTPResponse_body_within raw
  have hinr : str "GPOST" <:+: raw := h.trans hbody
  have hup : str "GPOST" <:+: toUpperStr raw := by
    have hm := infix_map_chars Char.toUpper hinr
    have hfix : (str "GPOST").map Char.toUpper = str "GPOST" := by decide
    rw [hfix] at hm
    exact hm
  have hc : containsStr (toUpperStr raw) (str "GPOST") = true := by
    unfold containsStr
    exact decide_eq_true hup
  unfold classifyGPOST
  rw [parseHTTPResponse_raw, hc]
  rfl

theorem C5_gpost_suspicious_witness :
    str "GPOST" <:+: (parseHTTPResponse (str "HTTP/1.1 200 OK\r\n\r\nGPOST not allowed")).body ∧
    classifyGPOST (parseHTTPResponse (str "HTTP/1.1 200 OK\r\n\r\nGPOST not allowed")) 200
      = true :=
  ⟨by decide, C5_gpost_suspicious (str "HTTP/1.1 200 OK\r\n\r\nGPOST not allowed") 200 (by decide)⟩

/-- Claim C6, counterexample: a probe response with status 500, different
from the baseline status 200 and free of both poisoning indicator phrases,
is classified not suspicious, although the claim requires any differing
status to be suspicious. -/
theorem C6_counterexample :
    (parseHTTPResponse (str "HTTP/1.1 500 Server Error\r\n\r\noops")).statusCode = 500 ∧
    (500 : Int) ≠ 200 ∧
    classifyGPOST (parseHTTPResponse (str "HTTP/1.1 500 Server Error\r\n\r\noops")) 200
      = false := by
  refine ⟨by decide, by decide, by decide⟩

/-- Claim C6, amended: when the probe response contains neither the corrupted
method token nor the unrecognized-method phrase, the verdict is suspicious
exactly when the status code is 405 or 400 and differs from the baseline
status code; any other differing status is not suspicious. -/
theorem C6_status_path (resp2 : HTTPResponse) (baselineStatusCode : Int)
    (h1 : containsStr (toUpperStr resp2.raw) (str "GPOST") = false)
    (h2 : containsStr (toUpperStr resp2.raw) (str "UNRECOGNIZED METHOD") = false) :
    (classifyGPOST resp2 baselineStatusCode = true ↔
      (resp2.statusCode = 405 ∨ resp2.statusCode = 400) ∧
        resp2.statusCode ≠ baselineStatusCode) := by
  unfold classifyGPOST
  rw [h1, h2]
  simp only [Bool.false_eq_true, if_false]
  split_ifs with h3 h4
  · simp [h3, h4]
  · simp [h3, h4]
  · simp [h3]

theorem C6_status_path_witness :
    classifyGPOST { raw := [], statusCode := 400 } 200 = true ↔
      (({ raw := [], statusCode := 400 } : HTTPResponse).statusCode = 405 ∨
        ({ raw := [], statusCode := 400 } : HTTPResponse).statusCode = 400) ∧
        ({ raw := [], statusCode := 400 } : HTTPResponse).statusCode ≠ 200 :=
  C6_status_path { raw := [], statusCode := 400 } 200 (by decide) (by decide)

/-- Claim C2: for every technique analysis (CL.TE, TE.CL, Mixed-TE,
Obfuscated-TE) and every comparison, the confidence equals the sum of the
weights of the fired signals clamped at one, and the verdict is suspicious
exactly when at least one strong signal fired and the clamped confidence
reaches the configured threshold. -/
theorem C2_weighted_model (d : Detector) (tgt : Str) (cp : BaselineComparison) :
    ((AnalyzeCLTE d tgt cp).confidence = min (sumFiredWeights clteSignals cp) 1 ∧
      ((AnalyzeCLTE d tgt cp).suspicious = true ↔
        strongFired clteSignals cp = true ∧
          d.confidenceThreshold ≤ min (sumFiredWeights clteSignals cp) 1)) ∧
    ((AnalyzeTECL d tgt cp).confidence = min (sumFiredWeights teclSignals cp) 1 ∧
      ((AnalyzeTECL d tgt cp).suspicious = true ↔
        strongFired teclSignals cp = true ∧
          d.confidenceThreshold ≤ min (sumFiredWeights teclSignals cp) 1)) ∧
    ((AnalyzeMixedTE d tgt cp).confidence = min (sumFiredWeights mixedTESignals cp) 1 ∧
      ((AnalyzeMixedTE d tgt cp).suspicious = true ↔
        strongFired mixedTESignals cp = true ∧
          d.confidenceThreshold ≤ min (sumFiredWeights mixedTESignals cp) 1)) ∧
    ((AnalyzeObfuscatedTE d tgt cp).confidence = min (sumFiredWeights obfuscatedTESignals cp) 1 ∧
      ((AnalyzeObfuscatedTE d tgt cp).suspicious = true ↔
        strongFired obfuscatedTESignals cp = true ∧
          d.confidenceThreshold ≤ min (sumFiredWeights obfuscatedTESignals cp) 1)) :=
  ⟨analyzeCLTE_weighted d tgt cp, analyzeTECL_weighted d tgt cp,
   analyzeMixedTE_weighted d tgt cp, analyzeObfuscatedTE_weighted d tgt cp⟩

/-- Baseline of the worked detection example: status 200, timing 50 ms, a
2000-byte body, Transfer-Encoding present among the headers. -/
def baselineC3 : HTTPResponse :=
  { statusCode := 200, timingMS := 50, body := List.replicate 2000 'a',
    headers := [(str "Transfer-Encoding", str "chunked"), (str "Content-Type", str "text/html")] }

/-- Test response of the worked detection example: status 400, timing 10 ms,
a 1700-byte body, Transfer-Encoding absent. -/
def testC3 : HTTPResponse :=
  { statusCode := 400, timingMS := 10, body := List.replicate 1700 'a',
    headers := [(str "Content-Type", str "text/html")] }

/-- The comparison computed from the worked example. -/
def comparisonC3 : BaselineComparison := CompareResponses (some baselineC3) (some testC3)

/-- Symbolic evaluation of the worked-example comparison: status changed to
400, timing 40 ms faster, connection behavior unchanged, body shrank by 300
bytes, and the Transfer-Encoding header was removed. -/
theorem comparisonC3_eval :
    comparisonC3.statusCodeChanged = true ∧ comparisonC3.newStatusCode = 400 ∧
    comparisonC3.timingDiffMS = -40 ∧
    comparisonC3.connectionBehaviorChanged = false ∧
    comparisonC3.bodyChanged = true ∧ comparisonC3.bodySizeDiff = -300 ∧
    comparisonC3.headersRemoved = [(str "transfer-encoding", str "chunked")] ∧
    comparisonC3.headersAdded = [] := by
  have hbody : ((List.replicate 2000 'a' : Str) = List.replicate 1700 'a') = False := by
    simp only [eq_iff_iff, iff_false]
    intro h
    have hl := congrArg List.length h
    rw [List.length_replicate, List.length_replicate] at hl
    omega
  have hnb : normalizeHeaderMap
      [(str "Transfer-Encoding", str "chunked"), (str "Content-Type", str "text/html")] =
      [(str "transfer-encoding", str "chunked"), (str "content-type", str "text/html")] := by
    decide
  have hnt : normalizeHeaderMap [(str "Content-Type", str "text/html")] =
      [(str "content-type", str "text/html")] := by
    decide
  have hrem : headersRemovedOf
      [(str "transfer-encoding", str "chunked"), (str "content-type", str "text/html")]
      [(str "content-type", str "text/html")] = [(str "transfer-encoding", str "chunked")] := by
    decide
  have hmod : headersModifiedOf
      [(str "transfer-encoding", str "chunked"), (str "content-type", str "text/html")]
      [(str "content-type", str "text/html")] = [] := by
    decide
  have hadd : headersAddedOf
      [(str "transfer-encoding", str "chunked"), (str "content-type", str "text/html")]
      [(str "content-type", str "text/html")] = [] := by
    decide
  have e1 : ((200 : Int) = 400) = False := by decide
  have e2 : ((10 : Int) - 50) = -40 := by decide
  have e3 : ((50 : Int) > 0) = True := by decide
  have e4 : ((-40 : Int) > 100) = False := by decide
  have e5 : ((-40 : Int) < -100) = False := by decide
  have e6 : (((1700 : Nat) : Int) - ((2000 : Nat) : Int)) = -300 := by decide
  have e7 : ((str "transfer-encoding", str "chunked") ::
      ([] : List (Str × Str)) = []) = False := by
    simp
  simp only [comparisonC3, CompareResponses, baselineC3, testC3, hnb, hnt, hrem, hmod, hadd,
    hbody, e1, e2, e3, e4, e5, e6, e7, List.length_replicate, ne_eq, not_false_eq_true,
    eq_self_iff_true, not_true, if_true, if_false, true_and, and_true, false_and, and_false,
    if_neg, if_pos, Bool.false_eq_true, ite_true, ite_false]
  norm_num

theorem headerExists_te_removed :
    headerExistsCaseInsensitive [(str "transfer-encoding", str "chunked")]
      (str "Transfer-Encoding") = true := by
  decide

theorem clteSignals_sum_at (cp : BaselineComparison)
    (e1 : cp.statusCodeChanged = true) (e2 : cp.newStatusCode = 400)
    (e3 : cp.timingDiffMS = -40) (e4 : cp.connectionBehaviorChanged = false)
    (e5 : cp.bodyChanged = true) (e6 : cp.bodySizeDiff = -300)
    (e7 : cp.headersRemoved = [(str "transfer-encoding", str "chunked")]) :
    min (sumFiredWeights clteSignals cp) 1 = 13/20 := by
  simp only [sumFiredWeights, clteSignals, List.map_cons, List.map_nil, List.sum_cons,
    List.sum_nil, e1, e2, e3, e4, e5, e6, e7, headerExists_te_removed]
  norm_num [min_def]

theorem clteSignals_strong_at (cp : BaselineComparison)
    (e1 : cp.statusCodeChanged = true) (e2 : cp.newStatusCode = 400) :
    strongFired clteSignals cp = true := by
  simp only [strongFired, clteSignals, List.any_cons, List.any_nil, e1, e2]
  simp

/-- Claim C3, counterexample: on the specified input pair the CL.TE analysis
yields confidence 13/20 = 0.65, not 0.50 as claimed: besides the three
signals the claim lists, the body shrank by 300 bytes, which is at least 200,
so the 0.15 body-shrink signal fires as well. -/
theorem C3_counterexample :
    (AnalyzeCLTE NewDetector (str "t") comparisonC3).confidence = 13/20 ∧
    ((13 : ℚ)/20) ≠ 1/2 := by
  obtain ⟨e1, e2, e3, e4, e5, e6, e7, e8⟩ := comparisonC3_eval
  constructor
  · rw [(analyzeCLTE_weighted NewDetector (str "t") comparisonC3).1]
    exact clteSignals_sum_at comparisonC3 e1 e2 e3 e4 e5 e6 e7
  · norm_num

/-- Claim C3, amended: on the specified input pair the CL.TE analysis yields
confidence exactly 0.65 (0.25 for status 400, 0.15 for the 40 ms faster
timing, 0.15 for the body shrinking 300 bytes, 0.10 for the removed
Transfer-Encoding header), the 400-status signal is strong, and the verdict
is suspicious at the default threshold 0.5. -/
theorem C3_worked_example :
    (AnalyzeCLTE NewDetector (str "t") comparisonC3).confidence = 13/20 ∧
    (AnalyzeCLTE NewDetector (str "t") comparisonC3).suspicious = true ∧
    strongFired clteSignals comparisonC3 = true ∧
    comparisonC3.statusCodeChanged = true ∧ comparisonC3.newStatusCode = 400 ∧
    comparisonC3.timingDiffMS = -40 ∧
    comparisonC3.bodySizeDiff = -300 ∧
    comparisonC3.headersRemoved = [(str "transfer-encoding", str "chunked")] := by
  obtain ⟨e1, e2, e3, e4, e5, e6, e7, e8⟩ := comparisonC3_eval
  have hsum := clteSignals_sum_at comparisonC3 e1 e2 e3 e4 e5 e6 e7
  have hstrong := clteSignals_strong_at comparisonC3 e1 e2
  refine ⟨?_, ?_, hstrong, e1, e2, e3, e6, e7⟩
  · rw [(analyzeCLTE_weighted NewDetector (str "t") comparisonC3).1]
    exact hsum
  · apply (analyzeCLTE_weighted NewDetector (str "t") comparisonC3).2.mpr
    refine ⟨hstrong, ?_⟩
    rw [hsum]
    show NewDetector.confidenceThreshold ≤ 13/20
    have hth : NewDetector.confidenceThreshold = 1/2 := rfl
    rw [hth]
    norm_num

/-- On a comparison that records nothing (every flag at its zero value), all
four technique analyzers report confidence zero and not suspicious. -/
theorem analyzers_at_trivial (d : Detector) (tgt : Str) (b t : Option HTTPResponse) :
    (AnalyzeCLTE d tgt { baseline := b, test := t }).confidence = 0 ∧
    (AnalyzeCLTE d tgt { baseline := b, test := t }).suspicious = false ∧
    (AnalyzeTECL d tgt { baseline := b, test := t }).confidence = 0 ∧
    (AnalyzeTECL d tgt { baseline := b, test := t }).suspicious = false ∧
    (AnalyzeMixedTE d tgt { baseline := b, test := t }).confidence = 0 ∧
    (AnalyzeMixedTE d tgt { baseline := b, test := t }).suspicious = false ∧
    (AnalyzeObfuscatedTE d tgt { baseline := b, test := t }).confidence = 0 ∧
    (AnalyzeObfuscatedTE d tgt { baseline := b, test := t }).suspicious = false := by
  have hz1 : sumFiredWeights clteSignals { baseline := b, test := t } = 0 := by
    simp [sumFiredWeights, clteSignals, headerExistsCaseInsensitive]
  have hz2 : sumFiredWeights teclSignals { baseline := b, test := t } = 0 := by
    simp [sumFiredWeights, teclSignals, headerExistsCaseInsensitive]
  have hz3 : sumFiredWeights mixedTESignals { baseline := b, test := t } = 0 := by
    simp [sumFiredWeights, mixedTESignals, headerExistsCaseInsensitive]
  have hz4 : sumFiredWeights obfuscatedTESignals { baseline := b, test := t } = 0 := by
    simp [sumFiredWeights, obfuscatedTESignals, headerExistsCaseInsensitive]
  have hs1 : strongFired clteSignals { baseline := b, test := t } = false := by
    simp [strongFired, clteSignals]
  have hs2 : strongFired teclSignals { baseline := b, test := t } = false := by
    simp [strongFired, teclSignals]
  have hs3 : strongFired mixedTESignals { baseline := b, test := t } = false := by
    simp [strongFired, mixedTESignals]
  have hs4 : strongFired obfuscatedTESignals { baseline := b, test := t } = false := by
    simp [strongFired, obfuscatedTESignals]
  refine ⟨?_, ?_, ?_, ?_, ?_, ?_, ?_, ?_⟩
  · rw [(analyzeCLTE_weighted d tgt _).1, hz1]
    norm_num [min_def]
  · rcases hsusp : (AnalyzeCLTE d tgt { baseline := b, test := t }).suspicious with _ | _
    · rfl
    · have hst := ((analyzeCLTE_weighted d tgt _).2.mp hsusp).1
      rw [hs1] at hst
      cases hst
  · rw [(analyzeTECL_weighted d tgt _).1, hz2]
    norm_num [min_def]
  · rcases hsusp : (AnalyzeTECL d tgt { baseline := b, test := t }).suspicious with _ | _
    · rfl
    · have hst := ((analyzeTECL_weighted d tgt _).2.mp hsusp).1
      rw [hs2] at hst
      cases hst
  · rw [(analyzeMixedTE_weighted d tgt _).1, hz3]
    norm_num [min_def]
  · rcases hsusp : (AnalyzeMixedTE d tgt { baseline := b, test := t }).suspicious with _ | _
    · rfl
    · have hst := ((analyzeMixedTE_weighted d tgt _).2.mp hsusp).1
      rw [hs3] at hst
      cases hst
  · rw [(analyzeObfuscatedTE_weighted d tgt _).1, hz4]
    norm_num [min_def]
  · rcases hsusp : (AnalyzeObfuscatedTE d tgt { baseline := b, test := t }).suspicious with _ | _
    · rfl
    · have hst := ((analyzeObfuscatedTE_weighted d tgt _).2.mp hsusp).1
      rw [hs4] at hst
      cases hst

/-- Claim C7: structurally identical decoded responses produce a diff that
records no changes at all, and every technique detector reports confidence
zero and a non-suspicious verdict on that diff. -/
theorem C7_identical_clean (r₁ r₂ : HTTPResponse) (h : r₁ = r₂) (d : Detector) (tgt : Str) :
    CompareResponses (some r₁) (some r₂) = { baseline := some r₁, test := some r₂ } ∧
    (AnalyzeCLTE d tgt (CompareResponses (some r₁) (some r₂))).confidence = 0 ∧
    (AnalyzeCLTE d tgt (CompareResponses (some r₁) (some r₂))).suspicious = false ∧
    (AnalyzeTECL d tgt (CompareResponses (some r₁) (some r₂))).confidence = 0 ∧
    (AnalyzeTECL d tgt (CompareResponses (some r₁) (some r₂))).suspicious = false ∧
    (AnalyzeMixedTE d tgt (CompareResponses (some r₁) (some r₂))).confidence = 0 ∧
    (AnalyzeMixedTE d tgt (CompareResponses (some r₁) (some r₂))).suspicious = false ∧
    (AnalyzeObfuscatedTE d tgt (CompareResponses (some r₁) (some r₂))).confidence = 0 ∧
    (AnalyzeObfuscatedTE d tgt (CompareResponses (some r₁) (some r₂))).suspicious = false := by
  subst h
  have hcmp := CompareResponses_self r₁
  rw [hcmp]
  exact ⟨rfl, (analyzers_at_trivial d tgt (some r₁) (some r₁)).1,
    (analyzers_at_trivial d tgt (some r₁) (some r₁)).2.1,
    (analyzers_at_trivial d tgt (some r₁) (some r₁)).2.2.1,
    (analyzers_at_trivial d tgt (some r₁) (some r₁)).2.2.2.1,
    (analyzers_at_trivial d tgt (some r₁) (some r₁)).2.2.2.2.1,
    (analyzers_at_trivial d tgt (some r₁) (some r₁)).2.2.2.2.2.1,
    (analyzers_at_trivial d tgt (some r₁) (some r₁)).2.2.2.2.2.2.1,
    (analyzers_at_trivial d tgt (some r₁) (some r₁)).2.2.2.2.2.2.2⟩

theorem C7_identical_clean_witness :
    CompareResponses (some { statusCode := 200 }) (some { statusCode := 200 }) =
      { baseline := some { statusCode := 200 }, test := some { statusCode := 200 } } ∧
    (AnalyzeCLTE NewDetector (str "t")
      (CompareResponses (some { statusCode := 200 }) (some { statusCode := 200 }))).confidence
        = 0 ∧
    (AnalyzeCLTE NewDetector (str "t")
      (CompareResponses (some { statusCode := 200 }) (some { statusCode := 200 }))).suspicious
        = false ∧
    (AnalyzeTECL NewDetector (str "t")
      (CompareResponses (some { statusCode := 200 }) (some { statusCode := 200 }))).confidence
        = 0 ∧
    (AnalyzeTECL NewDetector (str "t")
      (CompareResponses (some { statusCode := 200 }) (some { statusCode := 200 }))).suspicious
        = false ∧
    (AnalyzeMixedTE NewDetector (str "t")
      (CompareResponses (some { statusCode := 200 }) (some { statusCode := 200 }))).confidence
        = 0 ∧
    (AnalyzeMixedTE NewDetector (str "t")
      (CompareResponses (some { statusCode := 200 }) (some { statusCode := 200 }))).suspicious
        = false ∧
    (AnalyzeObfuscatedTE NewDetector (str "t")
      (CompareResponses (some { statusCode := 200 }) (some { statusCode := 200 }))).confidence
        = 0 ∧
    (AnalyzeObfuscatedTE NewDetector (str "t")
      (CompareResponses (some { statusCode := 200 }) (some { statusCode := 200 }))).suspicious
        = false :=
  C7_identical_clean { statusCode := 200 } { statusCode := 200 } rfl NewDetector (str "t")

end Smuggler
